import Mathlib

/-
Verification of mm3_Compile.py (channel detection, drift estimation and
channel slicing for mother-machine microscopy data).

The Python source is shallowly embedded below: pure computations become Lean
functions over Nat / Int / Rat lists, numpy failures (ragged arrays, index
errors, unbound names) become Except / Option results, and helper functions
that live in mm3_helpers (outside this repository snapshot) are modelled from
the design document and marked as such in their doc comments.
-/

set_option maxHeartbeats 1000000

namespace MM3

/-- Python exceptions observable in the embedded fragments. -/
inductive PyErr where
  | nameError (n : String)
  | typeError
  | indexError
deriving DecidableEq

def exceptDecEq {ε α : Type} [DecidableEq ε] [DecidableEq α] :
    (a b : Except ε α) → Decidable (a = b)
  | Except.ok x, Except.ok y =>
      if h : x = y then isTrue (by rw [h])
      else isFalse (fun hc => h (Except.ok.inj hc))
  | Except.error x, Except.error y =>
      if h : x = y then isTrue (by rw [h])
      else isFalse (fun hc => h (Except.error.inj hc))
  | Except.ok _, Except.error _ => isFalse (fun hc => Except.noConfusion hc)
  | Except.error _, Except.ok _ => isFalse (fun hc => Except.noConfusion hc)

instance {ε α : Type} [DecidableEq ε] [DecidableEq α] : DecidableEq (Except ε α) :=
  exceptDecEq

/-- One connected component of a labelled boolean trap mask
(skimage measure.regionprops). Only the fields consumed by the
drift-estimation area filter (mm3_Compile.py lines 334-347) are kept:
the region label and its pixel (voxel) area. -/
structure TrapRegion where
  label : Nat
  area : Nat
deriving DecidableEq

/-- One comparison step of the modal-area search. scipy stats.mode keeps the
value with the highest count and prefers the smaller value when counts tie. -/
def mode_better (areas : List Nat) (a best : Nat) : Bool :=
  decide (areas.count best < areas.count a) ||
    (decide (areas.count a = areas.count best) && decide (a < best))

/-- Fold step used by mode_area. -/
def mode_step (areas : List Nat) (best a : Nat) : Nat :=
  if mode_better areas a best then a else best

/-- mode_area = stats.mode(areas)[0] (line 338): the most frequent area value
across the whole batch of labelled regions (the smallest such value when
several areas are equally frequent, as scipy documents). -/
def mode_area (areas : List Nat) : Nat :=
  areas.foldl (mode_step areas) (areas.headD 0)

/-- Lines 340-344: regions whose area equals the modal area are collected
into good_align_trap_props. -/
def good_align_trap_props (props : List TrapRegion) : List TrapRegion :=
  props.filter (fun t => t.area == mode_area (props.map TrapRegion.area))

/-- Lines 340-347: labels of the regions whose area differs from the modal
area; these labels are then zeroed out of the labelled stack, so the
corresponding regions are discarded from drift estimation. -/
def bad_align_trap_props (props : List TrapRegion) : List Nat :=
  (props.filter (fun t => t.area != mode_area (props.map TrapRegion.area))).map
    TrapRegion.label

/-- Concrete batch of regions realising the area list [100,100,100,55] used
by the testable property of the design document. -/
def demo_regions : List TrapRegion :=
  [⟨1, 100⟩, ⟨2, 100⟩, ⟨3, 100⟩, ⟨4, 55⟩]

lemma count_le_mode_step (areas : List Nat) (a best : Nat) :
    areas.count best ≤ areas.count (mode_step areas best a) := by
  unfold mode_step
  by_cases h : mode_better areas a best = true
  · simp only [h, if_true]
    simp only [mode_better, Bool.or_eq_true, Bool.and_eq_true, decide_eq_true_eq] at h
    rcases h with h | ⟨h, _⟩
    · exact Nat.le_of_lt h
    · exact Nat.le_of_eq h.symm
  · simp [h]

lemma count_init_le_foldl (areas l : List Nat) (best : Nat) :
    areas.count best ≤ areas.count (l.foldl (mode_step areas) best) := by
  induction l generalizing best with
  | nil => simp
  | cons a t ih =>
      simp only [List.foldl_cons]
      exact le_trans (count_le_mode_step areas a best) (ih (mode_step areas best a))

lemma count_elem_le_mode_step (areas : List Nat) (a best : Nat) :
    areas.count a ≤ areas.count (mode_step areas best a) := by
  unfold mode_step
  by_cases h : mode_better areas a best = true
  · simp [h]
  · rw [if_neg h]
    simp only [mode_better, Bool.or_eq_true, Bool.and_eq_true, decide_eq_true_eq] at h
    push_neg at h
    exact h.1

lemma count_mem_le_foldl (areas : List Nat) :
    ∀ (l : List Nat) (best a : Nat), a ∈ l →
      areas.count a ≤ areas.count (l.foldl (mode_step areas) best) := by
  intro l
  induction l with
  | nil => intro best a ha; cases ha
  | cons b t ih =>
      intro best a ha
      simp only [List.foldl_cons]
      rcases List.mem_cons.1 ha with rfl | h
      · exact le_trans (count_elem_le_mode_step areas a best)
          (count_init_le_foldl areas t (mode_step areas best a))
      · exact ih (mode_step areas best b) a h

/-- The modal area is (weakly) most frequent among the batch areas. -/
lemma count_le_count_mode (areas : List Nat) (a : Nat) (ha : a ∈ areas) :
    areas.count a ≤ areas.count (mode_area areas) :=
  count_mem_le_foldl areas areas (areas.headD 0) a ha

/-- Claim C1: during drift estimation only regions whose pixel area equals
the modal (most frequent) area across the whole batch are kept in
good_align_trap_props; every region whose area differs from the mode has its
label recorded in bad_align_trap_props (and is then zeroed out of the
labelled stack). On areas [100,100,100,55] the mode is 100 and the area-55
region is excluded from the accepted set. -/
theorem C1_mode_area_filtering (props : List TrapRegion) :
    (∀ t, t ∈ props →
        (props.map TrapRegion.area).count t.area ≤
          (props.map TrapRegion.area).count
            (mode_area (props.map TrapRegion.area))) ∧
    (∀ t, t ∈ props →
        ((t ∈ good_align_trap_props props ↔
            t.area = mode_area (props.map TrapRegion.area)) ∧
         (t.area ≠ mode_area (props.map TrapRegion.area) →
            t.label ∈ bad_align_trap_props props))) ∧
    mode_area [100, 100, 100, 55] = 100 ∧
    good_align_trap_props demo_regions = [⟨1, 100⟩, ⟨2, 100⟩, ⟨3, 100⟩] ∧
    bad_align_trap_props demo_regions = [4] := by
  refine ⟨?_, ?_, by decide, by decide, by decide⟩
  · intro t ht
    exact count_le_count_mode (props.map TrapRegion.area) t.area
      (List.mem_map_of_mem TrapRegion.area ht)
  · intro t ht
    constructor
    · constructor
      · intro hg
        have := (List.mem_filter.1 hg).2
        simpa using this
      · intro he
        exact List.mem_filter.2 ⟨ht, by simpa using he⟩
    · intro hne
      refine List.mem_map_of_mem TrapRegion.label (List.mem_filter.2 ⟨ht, ?_⟩)
      simpa using hne

/-- Witness for C1 at the concrete batch of the design document. -/
theorem C1_mode_area_filtering_witness :
    (demo_regions.map TrapRegion.area).count (TrapRegion.area ⟨4, 55⟩) ≤
      (demo_regions.map TrapRegion.area).count
        (mode_area (demo_regions.map TrapRegion.area)) :=
  (C1_mode_area_filtering demo_regions).1 ⟨4, 55⟩ (by decide)

/-
Reference-crop selection (mm3_Compile.py lines 284-294).

centroids holds the rounded centroids of the dilated trap regions, one
(row, col) pair per region, in label order.  The source builds

  top_test    = centroids[:,0] - 256 > 0
  bottom_test = centroids[:,0] + 256 < dilated_trap_labels.shape[0]
  test_array  = np.stack((top_test, bottom_test))          -- shape (2, N)
  good_trap_region_index = np.where(np.all(test_array, axis=1))[0][0]

Note that only the row coordinate centroids[:,0] is ever inspected, and that
np.all(..., axis=1) on the stacked (2, N) array reduces across the REGION
axis, yielding the two booleans [all of top_test, all of bottom_test]; the
chosen index therefore ranges over the two tests, not over the regions.
-/

/-- top_test (line 288), computed from the region centroid rows only. -/
def top_test (rows : List Int) : List Bool :=
  rows.map (fun r => decide (0 < r - 256))

/-- bottom_test (line 289), computed from the region centroid rows only. -/
def bottom_test (frameH : Int) (rows : List Int) : List Bool :=
  rows.map (fun r => decide (r + 256 < frameH))

/-- test_array = np.stack((top_test, bottom_test)) (line 290): a 2-row
matrix whose rows are the two per-region test vectors. -/
def test_array (frameH : Int) (rows : List Int) : List (List Bool) :=
  [top_test rows, bottom_test frameH rows]

/-- np.all(test_array, axis=1) (line 293): reduction across the length-N
region axis of the (2, N) stack, giving one boolean per TEST. -/
def test_all_axis1 (frameH : Int) (rows : List Int) : List Bool :=
  (test_array frameH rows).map (fun row => row.all id)

/-- good_trap_region_index = np.where(np.all(test_array, axis=1))[0][0]
(line 293): index of the first True entry of the axis-1 reduction; an empty
np.where result makes the trailing [0] raise IndexError. -/
def good_trap_region_index (frameH : Int) (rows : List Int) : Except PyErr Nat :=
  match (test_all_axis1 frameH rows).findIdx? id with
  | some i => Except.ok i
  | none => Except.error PyErr.indexError

/-- Selection as claim C2 states it: scan the dilated regions in label order
and pick the first region whose centroid admits the fixed 512-pixel square
crop with half-width clearance on all four sides of the frame, i.e. whose
crop stays inside the frame in both the row and the column dimension. -/
def claimed_good_trap_region_index (frameH frameW : Int)
    (cents : List (Int × Int)) : Option Nat :=
  cents.findIdx? (fun c =>
    decide (0 < c.1 - 256) && decide (c.1 + 256 < frameH) &&
    decide (0 < c.2 - 256) && decide (c.2 + 256 < frameW))

/-- Claim C2 (code bug): at region centroid rows [300, 100] in a 2048-pixel
frame the source selects index 1 (because all regions pass bottom_test),
although region 1 cannot host the square crop and region 0 - which the claim
and the adjacent source comments designate - can; moreover a single region
with centroid (300, 10) is selected by the source even though its crop
leaves the frame on the left, since the column dimension is never tested. -/
theorem C2_selection_axis_bug :
    good_trap_region_index 2048 [300, 100] = Except.ok 1 ∧
    claimed_good_trap_region_index 2048 2048 [(300, 1024), (100, 1024)] = some 0 ∧
    ¬ (0 < (100 : Int) - 256) ∧
    good_trap_region_index 2048 [300] = Except.ok 0 ∧
    claimed_good_trap_region_index 2048 2048 [(300, 10)] = none := by
  refine ⟨by decide, by decide, by decide, by decide, by decide⟩

/-
No-input and no-good-region diagnostics (claim C6).
-/

/-- Log output of the source; fatal is the level the claim asks for and the
source never emits in the checked places. -/
inductive LogMsg where
  | info (s : String)
  | warn (s : String)
  | fatal (s : String)
deriving DecidableEq

/-- Lines 142-145: when TIFF files were found an informational message is
logged, otherwise mm3.warning is called; in both cases execution falls
through to the rest of the stage (the source raises nothing here), which the
second component records. -/
def found_files_check (found_files : List String) : LogMsg × Bool :=
  if 0 < found_files.length then
    (LogMsg.info ("Found " ++ toString found_files.length ++ " image files."), true)
  else
    (LogMsg.warn "No TIFF files found", true)

/-- Claim C6 counterexample: with no input frames the source logs a warning
and continues, and with no region passing the crop tests the selection at
line 293 fails with a bare IndexError; neither outcome is a fatal error with
a diagnostic naming the failed precondition. -/
theorem C6_counterexample :
    found_files_check [] = (LogMsg.warn "No TIFF files found", true) ∧
    good_trap_region_index 300 [100] = Except.error PyErr.indexError := by
  exact ⟨by decide, by decide⟩

/-- Claim C6 as amended: an empty input file list produces exactly the
warning message and execution continues, and the reference-region selection
raises IndexError precisely when neither of the two stacked tests holds for
all regions. -/
theorem C6_amended_warn_and_index_error :
    (∀ ff : List String, ff = [] →
        found_files_check ff = (LogMsg.warn "No TIFF files found", true)) ∧
    (∀ (frameH : Int) (rows : List Int),
        good_trap_region_index frameH rows = Except.error PyErr.indexError ↔
          (¬ (top_test rows).all id = true ∧
           ¬ (bottom_test frameH rows).all id = true)) := by
  constructor
  · intro ff hff
    subst hff
    rfl
  · intro frameH rows
    unfold good_trap_region_index test_all_axis1 test_array
    rcases ht : (top_test rows).all id with _ | _ <;>
      rcases hb : (bottom_test frameH rows).all id with _ | _ <;>
        simp [List.findIdx?, ht, hb]

/-- Witness for the amended C6 theorem at concrete inputs. -/
theorem C6_amended_witness :
    found_files_check [] = (LogMsg.warn "No TIFF files found", true) ∧
    (good_trap_region_index 300 [100] = Except.error PyErr.indexError ↔
      (¬ (top_test [100]).all id = true ∧
       ¬ (bottom_test 300 [100]).all id = true)) :=
  ⟨C6_amended_warn_and_index_error.1 [] rfl,
   C6_amended_warn_and_index_error.2 300 [100]⟩

/-
Drift estimation (mm3_Compile.py lines 349-363).

align_centroids is built per frame from the mode-filtered labelled stack:
one list of (row, col) centroids per frame.  The source then computes

  align_centroids = np.asarray(align_centroids)
  shifts = np.mean(align_centroids - align_centroids[0,:,:], axis=1)
  integer_shifts = np.round(shifts).astype(int16)

np.asarray only yields the required (frames, regions, 2) array when every
frame contributes the same number of centroids; a ragged list makes the
subtraction (or, on current numpy, the asarray call itself) raise, which the
embedding records as the value none.
-/

/-- Arithmetic mean of a list of rationals (np.mean along one axis); the
empty list divides zero by zero, which is zero in Lean just as numpy turns
it into a non-number. -/
def meanQ (l : List Rat) : Rat :=
  l.sum / (l.length : Rat)

/-- Row components of the displacements of the centroids of one frame from
the frame-0 centroids, matched by array position. -/
def row_displacements (f0 ft : List (Rat × Rat)) : List Rat :=
  (ft.zip f0).map (fun p => p.1.1 - p.2.1)

/-- Column components of the displacements of the centroids of one frame
from the frame-0 centroids, matched by array position. -/
def col_displacements (f0 ft : List (Rat × Rat)) : List Rat :=
  (ft.zip f0).map (fun p => p.1.2 - p.2.2)

/-- Raw (rational) shift of one frame: elementwise mean of the centroid
displacements (the axis=1 mean at line 355). -/
def frame_shift (f0 ft : List (Rat × Rat)) : Rat × Rat :=
  (meanQ (row_displacements f0 ft), meanQ (col_displacements f0 ft))

/-- shifts (line 355).  none models the numpy failure on a ragged centroid
list (region-count mismatch between frame 0 and some frame) and on an empty
frame list (align_centroids[0] raises); otherwise one rational (row, col)
shift per frame. -/
def shifts : List (List (Rat × Rat)) → Option (List (Rat × Rat))
  | [] => none
  | f0 :: rest =>
      if (f0 :: rest).all (fun f => f.length == f0.length) then
        some ((f0 :: rest).map (fun f => frame_shift f0 f))
      else none

/-- Following the words of claim C4: a recoverable per-frame treatment in
which every frame whose accepted-region count matches frame 0 still gets its
averaged shift and a mismatched frame is excluded (none).  The source
implements nothing of the kind; compare shifts above. -/
def shifts_per_frame_claim : List (List (Rat × Rat)) → List (Option (Rat × Rat))
  | [] => []
  | f0 :: rest =>
      (f0 :: rest).map (fun f =>
        if f.length = f0.length then some (frame_shift f0 f) else none)

/-- np.round: round half to even (banker rounding), as numpy documents. -/
def np_round (q : Rat) : Int :=
  if q - ⌊q⌋ < 1 / 2 then ⌊q⌋
  else if 1 / 2 < q - ⌊q⌋ then ⌊q⌋ + 1
  else if 2 ∣ ⌊q⌋ then ⌊q⌋ else ⌊q⌋ + 1

/-- astype(int16): wrap an integer into the signed 16-bit range. -/
def int16_wrap (n : Int) : Int :=
  (n + 32768) % 65536 - 32768

/-- integer_shifts (line 357): np.round of each rational shift, cast to
int16. -/
def integer_shifts (ac : List (List (Rat × Rat))) : Option (List (Int × Int)) :=
  (shifts ac).map (fun l =>
    l.map (fun s => (int16_wrap (np_round s.1), int16_wrap (np_round s.2))))

/-
Bounding boxes (claims C3 and C7).

mm3.shift_bounding_boxes is defined in mm3_helpers, which is not part of
this repository snapshot; it is modelled from the design document.
-/

/-- Reference trap bounding box in skimage order (min_row, min_col, max_row,
max_col), rows [min_row, max_row) and columns [min_col, max_col) inside the
frame. -/
structure BBox where
  min_row : Int
  min_col : Int
  max_row : Int
  max_col : Int
deriving DecidableEq

/-- Translation of a box by one frame ShiftVector. -/
def shift_bbox (s : Int × Int) (b : BBox) : BBox :=
  ⟨b.min_row + s.1, b.min_col + s.2, b.max_row + s.1, b.max_col + s.2⟩

/-- Whether every pixel of the box lies inside [0, frameSize) in both
dimensions. -/
def bbox_in_bounds (frameSize : Int) (b : BBox) : Bool :=
  decide (0 ≤ b.min_row) && decide (b.max_row ≤ frameSize) &&
  decide (0 ≤ b.min_col) && decide (b.max_col ≤ frameSize)

/-- Modelled from the spec: the per-box step of mm3.shift_bounding_boxes
(absent from src); design document sections 4.5 and 7 require each reference
box to be translated by its frame ShiftVector and a box falling outside
[0, frame_dimension) in either dimension to be dropped with a warning
(none), never wrapped or clipped. -/
def shift_and_validate (frameSize : Int) (s : Int × Int) (b : BBox) :
    Option BBox :=
  if bbox_in_bounds frameSize (shift_bbox s b) then some (shift_bbox s b)
  else none

/-- Modelled from the spec: mm3.shift_bounding_boxes (line 363, absent from
src) applies, for every frame, that single frame ShiftVector to every
labelled reference box and validates frame bounds. -/
def shift_bounding_boxes (boxes : List (Nat × BBox))
    (ishifts : List (Int × Int)) (frameSize : Int) :
    List (List (Nat × Option BBox)) :=
  ishifts.map (fun s =>
    boxes.map (fun lb => (lb.1, shift_and_validate frameSize s lb.2)))

lemma np_round_nearest (q : Rat) : |(np_round q : Rat) - q| ≤ 1 / 2 := by
  have h0 : ((⌊q⌋ : Int) : Rat) ≤ q := Int.floor_le q
  have h1 : q < (⌊q⌋ : Int) + 1 := Int.lt_floor_add_one q
  unfold np_round
  split_ifs with hlt hgt hdvd
  · rw [abs_le]
    exact ⟨by linarith, by linarith⟩
  · push_cast
    rw [abs_le]
    exact ⟨by linarith, by linarith⟩
  · rw [abs_le]
    exact ⟨by linarith, by linarith⟩
  · push_cast
    rw [abs_le]
    exact ⟨by linarith, by linarith⟩

lemma int16_wrap_eq_self (n : Int) (hlo : -32768 ≤ n) (hhi : n < 32768) :
    int16_wrap n = n := by
  unfold int16_wrap
  have h3 : 0 ≤ n + 32768 := by linarith
  have h4 : n + 32768 < 65536 := by linarith
  rw [Int.emod_eq_of_lt h3 h4]
  ring

lemma np_round_int16_id (q : Rat) (hq : |q| ≤ 1024) :
    int16_wrap (np_round q) = np_round q := by
  have hnear := np_round_nearest q
  have hb : |(np_round q : Rat)| ≤ 1024 + 1 / 2 := by
    calc |(np_round q : Rat)| = |((np_round q : Rat) - q) + q| := by ring_nf
      _ ≤ |(np_round q : Rat) - q| + |q| := abs_add _ _
      _ ≤ 1 / 2 + 1024 := add_le_add hnear hq
      _ = 1024 + 1 / 2 := by ring
  rw [abs_le] at hb
  have hlo : (-32768 : Int) ≤ np_round q := by
    have : ((-32768 : Int) : Rat) ≤ (np_round q : Rat) := by push_cast; linarith [hb.1]
    exact_mod_cast this
  have hhi : np_round q < (32768 : Int) := by
    have : ((np_round q : Int) : Rat) < ((32768 : Int) : Rat) := by
      push_cast; linarith [hb.2]
    exact_mod_cast this
  exact int16_wrap_eq_self _ hlo hhi

lemma abs_sum_le_length_mul (l : List Rat) (B : Rat)
    (h : ∀ x ∈ l, |x| ≤ B) : |l.sum| ≤ l.length * B := by
  induction l with
  | nil => simp
  | cons a t ih =>
      simp only [List.sum_cons, List.length_cons]
      push_cast
      calc |a + t.sum| ≤ |a| + |t.sum| := abs_add a t.sum
        _ ≤ B + t.length * B :=
            add_le_add (h a (List.mem_cons_self a t))
              (ih (fun x hx => h x (List.mem_cons_of_mem a hx)))
        _ = (t.length + 1) * B := by ring

lemma abs_meanQ_le (l : List Rat) (B : Rat) (hB : 0 ≤ B)
    (h : ∀ x ∈ l, |x| ≤ B) : |meanQ l| ≤ B := by
  unfold meanQ
  rcases l with _ | ⟨a, t⟩
  · simpa using hB
  · have hnpos : (0 : Rat) < ((a :: t).length : Rat) := by
      exact_mod_cast Nat.succ_pos t.length
    rw [abs_div, div_le_iff₀ (by rwa [abs_of_pos hnpos])]
    calc |(a :: t).sum| ≤ ((a :: t).length : Rat) * B :=
          abs_sum_le_length_mul _ B h
      _ = B * |((a :: t).length : Rat)| := by rw [abs_of_pos hnpos]; ring

lemma abs_sub_le_add (a b : Rat) : |a - b| ≤ |a| + |b| := by
  have := abs_add a (-b)
  simpa [sub_eq_add_neg, abs_neg] using this

lemma row_disp_bound (f0 ft : List (Rat × Rat))
    (h0 : ∀ c ∈ f0, |c.1| ≤ 512 ∧ |c.2| ≤ 512)
    (ht : ∀ c ∈ ft, |c.1| ≤ 512 ∧ |c.2| ≤ 512) :
    ∀ x ∈ row_displacements f0 ft, |x| ≤ 1024 := by
  intro x hx
  unfold row_displacements at hx
  rcases List.mem_map.1 hx with ⟨⟨c, d⟩, hp, rfl⟩
  rcases List.of_mem_zip hp with ⟨hc, hd⟩
  calc |c.1 - d.1| ≤ |c.1| + |d.1| := abs_sub_le_add _ _
    _ ≤ 512 + 512 := add_le_add (ht c hc).1 (h0 d hd).1
    _ = 1024 := by norm_num

lemma col_disp_bound (f0 ft : List (Rat × Rat))
    (h0 : ∀ c ∈ f0, |c.1| ≤ 512 ∧ |c.2| ≤ 512)
    (ht : ∀ c ∈ ft, |c.1| ≤ 512 ∧ |c.2| ≤ 512) :
    ∀ x ∈ col_displacements f0 ft, |x| ≤ 1024 := by
  intro x hx
  unfold col_displacements at hx
  rcases List.mem_map.1 hx with ⟨⟨c, d⟩, hp, rfl⟩
  rcases List.of_mem_zip hp with ⟨hc, hd⟩
  calc |c.2 - d.2| ≤ |c.2| + |d.2| := abs_sub_le_add _ _
    _ ≤ 512 + 512 := add_le_add (ht c hc).2 (h0 d hd).2
    _ = 1024 := by norm_num

/-- Claim C3: when every frame contributes the same number of accepted
regions as frame 0 (and the centroids come from the 512-pixel crop), the
estimated shift list holds exactly one integer (row, col) pair per frame,
each pair being the elementwise mean of the positional centroid
displacements from frame 0, rounded to an integer at distance at most 1/2
(np.round), with the int16 cast changing nothing; and each frame row of the
shifted-bounding-box table applies that frame single vector to every
reference box. -/
theorem C3_one_rounded_mean_shift_per_frame
    (ac : List (List (Rat × Rat))) (f0 : List (Rat × Rat))
    (rest : List (List (Rat × Rat)))
    (hac : ac = f0 :: rest)
    (hlen : ∀ f ∈ ac, f.length = f0.length)
    (hbound : ∀ f ∈ ac, ∀ c ∈ f, |c.1| ≤ 512 ∧ |c.2| ≤ 512) :
    (∃ l, integer_shifts ac = some l ∧ l.length = ac.length ∧
       l = ac.map (fun f =>
             (np_round (meanQ (row_displacements f0 f)),
              np_round (meanQ (col_displacements f0 f)))) ∧
       (∀ (frameSize : Int) (boxes : List (Nat × BBox))
          (fb : List (Nat × Option BBox)),
          fb ∈ shift_bounding_boxes boxes l frameSize →
          ∃ s, s ∈ l ∧
            fb = boxes.map
              (fun lb => (lb.1, shift_and_validate frameSize s lb.2)))) ∧
    (∀ q : Rat, |(np_round q : Rat) - q| ≤ 1 / 2) := by
  subst hac
  have hall : ((f0 :: rest).all (fun f => f.length == f0.length)) = true := by
    rw [List.all_eq_true]
    intro f hf
    exact beq_iff_eq.2 (hlen f hf)
  have hs : shifts (f0 :: rest) = some ((f0 :: rest).map (frame_shift f0)) := by
    rw [shifts, hall]
    simp
  have h0mem : f0 ∈ f0 :: rest := List.mem_cons_self f0 rest
  refine ⟨⟨(f0 :: rest).map (fun f =>
      (np_round (meanQ (row_displacements f0 f)),
       np_round (meanQ (col_displacements f0 f)))), ?_, by simp, rfl, ?_⟩,
      np_round_nearest⟩
  · unfold integer_shifts
    rw [hs]
    show some ((((f0 :: rest).map (frame_shift f0)).map
        (fun s => (int16_wrap (np_round s.1), int16_wrap (np_round s.2))))) = _
    rw [List.map_map]
    congr 1
    refine List.map_congr_left ?_
    intro f hf
    have hrow : |meanQ (row_displacements f0 f)| ≤ 1024 :=
      abs_meanQ_le _ _ (by norm_num)
        (row_disp_bound f0 f (hbound f0 h0mem) (hbound f hf))
    have hcol : |meanQ (col_displacements f0 f)| ≤ 1024 :=
      abs_meanQ_le _ _ (by norm_num)
        (col_disp_bound f0 f (hbound f0 h0mem) (hbound f hf))
    simp only [Function.comp, frame_shift]
    rw [np_round_int16_id _ hrow, np_round_int16_id _ hcol]
  · intro frameSize boxes fb hfb
    unfold shift_bounding_boxes at hfb
    rcases List.mem_map.1 hfb with ⟨s, hsmem, rfl⟩
    exact ⟨s, hsmem, rfl⟩

/-- Concrete batch for the drift-estimation witnesses: two frames, one
accepted region each, a drift of (1, 1) pixels. -/
def demo_centroids : List (List (Rat × Rat)) :=
  [[(10, 20)], [(11, 21)]]

/-- Witness for C3 at the concrete two-frame batch. -/
theorem C3_witness :
    (∃ l, integer_shifts demo_centroids = some l ∧
       l.length = demo_centroids.length ∧
       l = demo_centroids.map (fun f =>
             (np_round (meanQ (row_displacements [(10, 20)] f)),
              np_round (meanQ (col_displacements [(10, 20)] f)))) ∧
       (∀ (frameSize : Int) (boxes : List (Nat × BBox))
          (fb : List (Nat × Option BBox)),
          fb ∈ shift_bounding_boxes boxes l frameSize →
          ∃ s, s ∈ l ∧
            fb = boxes.map
              (fun lb => (lb.1, shift_and_validate frameSize s lb.2)))) ∧
    (∀ q : Rat, |(np_round q : Rat) - q| ≤ 1 / 2) :=
  C3_one_rounded_mean_shift_per_frame demo_centroids [(10, 20)] [[(11, 21)]]
    rfl (by decide) (by decide)

/-- Claim C4 counterexample: with two accepted regions in frame 0 and one in
frame 1 the source shift computation fails as a whole (ragged numpy array):
no per-frame result exists for any frame, while the treatment the claim
describes would still produce the frame-0 shift and exclude only frame 1. -/
theorem C4_counterexample :
    shifts [[((0 : Rat), (0 : Rat)), (10, 0)], [(1, 1)]] = none ∧
    integer_shifts [[((0 : Rat), (0 : Rat)), (10, 0)], [(1, 1)]] = none ∧
    shifts_per_frame_claim [[((0 : Rat), (0 : Rat)), (10, 0)], [(1, 1)]] =
      [some (0, 0), none] := by
  refine ⟨by decide, by decide, ?_⟩
  simp only [shifts_per_frame_claim, List.map_cons, List.map_nil]
  norm_num [frame_shift, meanQ, row_displacements, col_displacements]

/-- Claim C4 as amended: a region-count mismatch between frame 0 and any
frame makes the whole drift estimation fail (no shift list at all is
produced, so no centroids are ever averaged), instead of being surfaced as a
recoverable per-frame error. -/
theorem C4_amended_mismatch_aborts_batch
    (ac : List (List (Rat × Rat))) (f0 : List (Rat × Rat))
    (rest : List (List (Rat × Rat)))
    (hac : ac = f0 :: rest)
    (f : List (Rat × Rat)) (hf : f ∈ ac) (hlen : f.length ≠ f0.length) :
    shifts ac = none ∧ integer_shifts ac = none := by
  subst hac
  have hall : ((f0 :: rest).all (fun g => g.length == f0.length)) = false := by
    rw [Bool.eq_false_iff]
    intro h
    rw [List.all_eq_true] at h
    exact hlen (by simpa using h f hf)
  have hs : shifts (f0 :: rest) = none := by
    rw [shifts, hall]
    simp
  exact ⟨hs, by unfold integer_shifts; rw [hs]; rfl⟩

/-- Witness for the amended C4 theorem at the concrete ragged batch. -/
theorem C4_amended_witness :
    shifts [[((0 : Rat), (0 : Rat)), (10, 0)], [(1, 1)]] = none ∧
    integer_shifts [[((0 : Rat), (0 : Rat)), (10, 0)], [(1, 1)]] = none :=
  C4_amended_mismatch_aborts_batch _ [((0 : Rat), (0 : Rat)), (10, 0)]
    [[(1, 1)]] rfl [(1, 1)] (by decide) (by decide)

/-- Claim C7: a bounding box leaving [0, frameSize) in either dimension
after its frame shift is flagged (dropped as none, the warned condition) and
is never wrapped, clipped or truncated - any box the shifter does keep is
the exact translation; in particular a box at (0, 0, h, w) shifted by
(-1, 0) is flagged out-of-bounds. -/
theorem C7_out_of_bounds_box_flagged :
    (∀ (frameSize : Int) (s : Int × Int) (b : BBox),
        bbox_in_bounds frameSize (shift_bbox s b) = false →
        shift_and_validate frameSize s b = none) ∧
    (∀ (frameSize : Int) (s : Int × Int) (b b2 : BBox),
        shift_and_validate frameSize s b = some b2 → b2 = shift_bbox s b) ∧
    (∀ h w : Int, shift_and_validate 2048 (-1, 0) ⟨0, 0, h, w⟩ = none) := by
  have hflag : ∀ (frameSize : Int) (s : Int × Int) (b : BBox),
      bbox_in_bounds frameSize (shift_bbox s b) = false →
      shift_and_validate frameSize s b = none := by
    intro fs s b hb
    unfold shift_and_validate
    rw [hb]
    simp
  refine ⟨hflag, ?_, ?_⟩
  · intro fs s b b2 hsv
    unfold shift_and_validate at hsv
    by_cases hb : bbox_in_bounds fs (shift_bbox s b) = true
    · rw [if_pos hb] at hsv
      exact (Option.some.inj hsv).symm
    · rw [if_neg hb] at hsv
      cases hsv
  · intro h w
    apply hflag
    unfold shift_bbox bbox_in_bounds
    norm_num

/-- Witness for C7 at the concrete box of the design document. -/
theorem C7_witness :
    bbox_in_bounds 2048 (shift_bbox (-1, 0) ⟨0, 0, 256, 40⟩) = false ∧
    shift_and_validate 2048 (-1, 0) ⟨0, 0, 256, 40⟩ = none :=
  ⟨by decide,
   C7_out_of_bounds_box_flagged.1 2048 (-1, 0) ⟨0, 0, 256, 40⟩ (by decide)⟩

/-
Metadata extraction results and the slicing stage
(claims C5, C8, C9 and C10).
-/

/-- Fields of one frame metadata record used by the embedded fragments:
the field-of-view id and the timepoint index stored under keys fov and t. -/
structure Record where
  fov : Nat
  t : Nat
deriving DecidableEq

/-- Value stored in analyzed_imgs for one file after the pool finishes:
either the metadata record, or the Python value False stored at line 176
when the worker failed. -/
inductive PoolEntry where
  | ok (r : Record)
  | failed
deriving DecidableEq

/-- Lines 171-176: for every file name, the pool result is kept when the
worker succeeded and replaced by the False sentinel otherwise; the loop is
total, so one corrupted file never aborts the batch. A worker result is
embedded as some record on success and none on failure. -/
def collect_results (results : List (String × Option Record)) :
    List (String × PoolEntry) :=
  results.map (fun kv =>
    (kv.1, match kv.2 with
           | some r => PoolEntry.ok r
           | none => PoolEntry.failed))

/-- Whether a stored pool entry is the failure sentinel. -/
def entry_failed : PoolEntry → Bool
  | PoolEntry.ok _ => false
  | PoolEntry.failed => true

/-- Number of valid records among the collected results. -/
def ok_count (l : List (String × PoolEntry)) : Nat :=
  (l.filter (fun kv => !entry_failed kv.2)).length

/-- Number of failure sentinels among the collected results. -/
def failed_count (l : List (String × PoolEntry)) : Nat :=
  (l.filter (fun kv => entry_failed kv.2)).length

/-- Names bound at the top level of mm3_Compile.py by its import statements
(lines 5-48): six is not among them, and no other statement in the module
binds six. -/
def module_imports : List String :=
  ["print_function", "sys", "os", "time", "inspect", "argparse", "yaml",
   "glob", "re", "io", "measure", "morphology", "stats", "pprint", "pickle",
   "multiprocessing", "Pool", "np", "warnings", "h5py", "models", "tiff",
   "mm3"]

/-- Python name resolution against the module global namespace: an unbound
name raises NameError. -/
def resolve_name (n : String) : Except PyErr Unit :=
  if n ∈ module_imports then Except.ok () else Except.error (PyErr.nameError n)

/-- Body of the list comprehension at line 415 once six were resolved: keep
(filename, t) for every record of the requested fov; evaluating v[fov] on
the False sentinel raises TypeError, so one failed record faults the whole
comprehension instead of being excluded. -/
def send_to_write_items (fov : Nat) :
    List (String × PoolEntry) → Except PyErr (List (String × Nat))
  | [] => Except.ok []
  | (fn, PoolEntry.ok r) :: rest =>
      (send_to_write_items fov rest).map
        (fun tail => if r.fov = fov then (fn, r.t) :: tail else tail)
  | (_, PoolEntry.failed) :: _ => Except.error PyErr.typeError

/-- Line 418: sorted(send_to_write, key=lambda time: time[1]) - a stable
sort of the selected records by their timepoint value. -/
def sort_send_to_write (items : List (String × Nat)) : List (String × Nat) :=
  List.insertionSort (fun a b => a.2 ≤ b.2) items

/-- Lines 414-418 as written: the comprehension first resolves the name six
(raising NameError, since six is never imported), would then build the
per-fov record list, and finally sort it by timepoint. -/
def send_to_write (analyzed : List (String × PoolEntry)) (fov : Nat) :
    Except PyErr (List (String × Nat)) := do
  let _ ← resolve_name "six"
  let items ← send_to_write_items fov analyzed
  pure (sort_send_to_write items)

/-- Body of the dictionary comprehension at lines 392-393 once six were
resolved: keep the records with t at most t_end; reading the t field of the
False sentinel raises TypeError. -/
def t_end_keep (tEnd : Nat) :
    List (String × PoolEntry) → Except PyErr (List (String × PoolEntry))
  | [] => Except.ok []
  | (fn, PoolEntry.ok r) :: rest =>
      (t_end_keep tEnd rest).map
        (fun tail => if r.t ≤ tEnd then (fn, PoolEntry.ok r) :: tail else tail)
  | (_, PoolEntry.failed) :: _ => Except.error PyErr.typeError

/-- Lines 391-393 as written: the channel-mask cutoff filter resolves six
(raising NameError, since six is never imported), and would then keep the
records with t at most t_end. -/
def t_end_filter (analyzed : List (String × PoolEntry)) (tEnd : Nat) :
    Except PyErr (List (String × PoolEntry)) := do
  let _ ← resolve_name "six"
  t_end_keep tEnd analyzed

/-- Writers the slicing stage can hand a fov to (lines 420-434); the
writers themselves live in mm3_helpers. -/
inductive Writer where
  | tiff_stack_slice_and_write
  | hdf5_stack_slice_and_write
  | save_tiffs
deriving DecidableEq

/-- Persistence form a writer produces: per-(fov, channel) TIFF stacks or
per-fov HDF5 containers. -/
def writer_sink : Writer → String
  | Writer.tiff_stack_slice_and_write => "TIFF"
  | Writer.hdf5_stack_slice_and_write => "HDF5"
  | Writer.save_tiffs => "TIFF"

/-- Lines 399-434: which writer the slicing stage dispatches to, as a
function of find_channels_method and the output configuration value; the
Unet branch contains no HDF5 case at all, so Unet plus HDF5 selects no
writer and nothing is persisted. -/
def slicing_writer (find_channels_method output : String) : Option Writer :=
  if find_channels_method = "peaks" then
    if output = "TIFF" then some Writer.tiff_stack_slice_and_write
    else if output = "HDF5" then some Writer.hdf5_stack_slice_and_write
    else none
  else if find_channels_method = "Unet" then
    if output = "TIFF" then some Writer.save_tiffs
    else none
  else none

/-- One persisted artifact of the slicing stage: the fov it covers and the
sink kind it was written to. -/
structure WriteOut where
  fov : Nat
  sink : String
deriving DecidableEq

/-- Lines 403-426: the peaks slicing stage. The loop header evaluates
six.iteritems(channel_masks) before any iteration, so with six unbound the
stage raises NameError with an empty write list; the (unreachable) body is
modelled for completeness: per fov, records are selected and sorted, then
handed to the writer chosen by the output value. -/
def do_slicing_peaks (channel_masks : List Nat)
    (analyzed : List (String × PoolEntry)) (output : String) :
    List WriteOut × Option PyErr :=
  match resolve_name "six" with
  | Except.error e => ([], some e)
  | Except.ok _ =>
      channel_masks.foldl (fun acc fov =>
        match acc.2 with
        | some _ => acc
        | none =>
            match send_to_write analyzed fov with
            | Except.error e => (acc.1, some e)
            | Except.ok _ =>
                match slicing_writer "peaks" output with
                | some w => (acc.1 ++ [⟨fov, writer_sink w⟩], none)
                | none => acc) ([], none)

lemma resolve_six :
    resolve_name "six" = Except.error (PyErr.nameError "six") := by decide

/-- Claim C10: six is never imported by the module, so the peaks slicing
stage raises NameError at its loop header before writing any channel stack,
and the channel-mask cutoff filter raises the same NameError. -/
theorem C10_six_unbound_name_error :
    module_imports.contains "six" = false ∧
    (∀ (channel_masks : List Nat) (analyzed : List (String × PoolEntry))
        (output : String),
        do_slicing_peaks channel_masks analyzed output =
          ([], some (PyErr.nameError "six"))) ∧
    (∀ (analyzed : List (String × PoolEntry)) (tEnd : Nat),
        t_end_filter analyzed tEnd = Except.error (PyErr.nameError "six")) := by
  refine ⟨by decide, ?_, ?_⟩
  · intro channel_masks analyzed output
    unfold do_slicing_peaks
    rw [resolve_six]
  · intro analyzed tEnd
    unfold t_end_filter
    rw [resolve_six]
    rfl

/-- Pool results over three files with exactly one corrupted file. -/
def demo_pool_results : List (String × Option Record) :=
  [("a.tif", some ⟨1, 1⟩), ("b.tif", none), ("c.tif", some ⟨1, 2⟩)]

/-- Claim C5 counterexample: collection over 3 files with 1 corrupted file
does complete with 2 valid records and 1 False sentinel, but the sentinel is
not excluded by the later slicing selection - the per-fov comprehension
faults (NameError on six as written; TypeError on the sentinel once six is
resolved) instead of yielding the K-1 valid records, and no count of failed
extractions is emitted at the collection site (lines 171-176 contain no
counter). -/
theorem C5_counterexample :
    ok_count (collect_results demo_pool_results) = 2 ∧
    failed_count (collect_results demo_pool_results) = 1 ∧
    send_to_write (collect_results demo_pool_results) 1 =
      Except.error (PyErr.nameError "six") ∧
    send_to_write_items 1 (collect_results demo_pool_results) =
      Except.error PyErr.typeError := by
  refine ⟨by decide, by decide, by decide, by decide⟩

lemma send_to_write_items_failed (fov : Nat) :
    ∀ analyzed : List (String × PoolEntry),
      PoolEntry.failed ∈ analyzed.map Prod.snd →
      send_to_write_items fov analyzed = Except.error PyErr.typeError := by
  intro analyzed
  induction analyzed with
  | nil => intro h; cases h
  | cons kv rest ih =>
      intro h
      rcases kv with ⟨fn, e⟩
      cases e with
      | ok r =>
          have hrest : PoolEntry.failed ∈ rest.map Prod.snd := by
            rcases List.mem_cons.1 h with hh | hh
            · cases hh
            · exact hh
          unfold send_to_write_items
          rw [ih hrest]
          rfl
      | failed => rfl

/-- Claim C5 as amended: a single failed extraction does not abort the
collection - every file still yields exactly one stored entry, with valid
records and failure sentinels counted faithfully - but the failed record is
not excluded by the later per-fov selection, which faults on any sentinel
(and the collection site emits no count of failures). -/
theorem C5_amended_isolation_without_exclusion
    (results : List (String × Option Record)) :
    (collect_results results).length = results.length ∧
    ok_count (collect_results results) =
      (results.filter (fun kv => kv.2.isSome)).length ∧
    failed_count (collect_results results) =
      (results.filter (fun kv => kv.2.isNone)).length ∧
    (∀ fov : Nat,
       PoolEntry.failed ∈ (collect_results results).map Prod.snd →
       send_to_write_items fov (collect_results results) =
         Except.error PyErr.typeError) := by
  refine ⟨List.length_map results _, ?_, ?_, ?_⟩
  · induction results with
    | nil => rfl
    | cons kv rest ih =>
        rcases kv with ⟨fn, e⟩
        cases e <;>
          simp [collect_results, ok_count, entry_failed, List.filter] at ih ⊢ <;>
            omega
  · induction results with
    | nil => rfl
    | cons kv rest ih =>
        rcases kv with ⟨fn, e⟩
        cases e <;>
          simp [collect_results, failed_count, entry_failed, List.filter] at ih ⊢ <;>
            omega
  · intro fov h
    exact send_to_write_items_failed fov (collect_results results) h

/-- Witness for the amended C5 theorem at the three-file batch. -/
theorem C5_amended_witness :
    send_to_write_items 1 (collect_results demo_pool_results) =
      Except.error PyErr.typeError :=
  (C5_amended_isolation_without_exclusion demo_pool_results).2.2.2 1 (by decide)

/-- Claim C9 counterexample: with the Unet detection strategy and the HDF5
output value the slicing dispatch selects no writer at all, so no channel
stacks are persisted; sink selection is not orthogonal to the detection
strategy. -/
theorem C9_counterexample :
    slicing_writer "Unet" "HDF5" = none := by decide

/-- Claim C9 as amended: in the peaks branch the sink is selected purely by
the output value (TIFF stack writer or HDF5 writer, each persisting to its
own sink); the Unet branch only supports TIFF, and Unet with HDF5 selects no
writer. -/
theorem C9_amended_sink_dispatch :
    (∀ o : String, o = "TIFF" ∨ o = "HDF5" →
        ∃ w, slicing_writer "peaks" o = some w ∧ writer_sink w = o) ∧
    slicing_writer "Unet" "TIFF" = some Writer.save_tiffs ∧
    writer_sink Writer.save_tiffs = "TIFF" ∧
    slicing_writer "Unet" "HDF5" = none := by
  refine ⟨?_, by decide, rfl, by decide⟩
  intro o ho
  rcases ho with rfl | rfl
  · exact ⟨Writer.tiff_stack_slice_and_write, by decide, rfl⟩
  · exact ⟨Writer.hdf5_stack_slice_and_write, by decide, rfl⟩

/-- Witness for the amended C9 theorem at the HDF5 output value. -/
theorem C9_amended_witness :
    ∃ w, slicing_writer "peaks" "HDF5" = some w ∧ writer_sink w = "HDF5" :=
  C9_amended_sink_dispatch.1 "HDF5" (Or.inr rfl)

/-
Frame-record ordering (claim C8).
-/

/-- Lines 227-228: file_names = keys of analyzed_imgs, then
file_names.sort() - Python sorts the file-name strings lexicographically
by code point (the accompanying source comment assumes this equals time
order). -/
def unet_file_names (analyzed : List (String × Record)) : List String :=
  List.insertionSort (fun a b : String => a ≤ b) (analyzed.map Prod.fst)

/-- Dictionary lookup analyzed_imgs[fn]: the timepoint stored under a file
name. -/
def lookup_t (analyzed : List (String × Record)) (fn : String) : Nat :=
  match analyzed.find? (fun kv => kv.1 == fn) with
  | some kv => kv.2.t
  | none => 0

/-- Timepoint sequence seen by the Unet-branch consumers that iterate
file_names in sorted order (lines 299 and 367). -/
def unet_consumer_ts (analyzed : List (String × Record)) : List Nat :=
  (unet_file_names analyzed).map (lookup_t analyzed)

/-- Metadata table with a three-digit and a four-digit timepoint tag, the
mixed-width situation the t_end regex at line 124 explicitly anticipates. -/
def demo_analyzed : List (String × Record) :=
  [("exp_t999xy01.tif", ⟨1, 999⟩), ("exp_t1000xy01.tif", ⟨1, 1000⟩)]

/-- demo_analyzed with its insertion order swapped. -/
def demo_analyzed_swapped : List (String × Record) :=
  [("exp_t1000xy01.tif", ⟨1, 1000⟩), ("exp_t999xy01.tif", ⟨1, 999⟩)]

/-- Claim C8 counterexample: the Unet branch sorts consumers by file name,
not by timepoint - with a three-digit tag t999 and a four-digit tag t1000
the lexicographically sorted file list puts timepoint 1000 before timepoint
999, so the consumed record sequence is not sorted by timepoint. -/
theorem C8_counterexample :
    unet_file_names demo_analyzed =
      ["exp_t1000xy01.tif", "exp_t999xy01.tif"] ∧
    unet_consumer_ts demo_analyzed = [1000, 999] ∧
    ¬ List.Sorted (fun a b : Nat => a ≤ b) [1000, 999] := by
  have h1 : ¬ (("exp_t999xy01.tif" : String) ≤ "exp_t1000xy01.tif") := by
    rw [String.le_iff_toList_le]
    decide
  have hs : unet_file_names demo_analyzed =
      ["exp_t1000xy01.tif", "exp_t999xy01.tif"] := by
    unfold unet_file_names demo_analyzed
    simp [List.insertionSort, List.orderedInsert, h1]
  refine ⟨hs, ?_, by decide⟩
  unfold unet_consumer_ts
  rw [hs]
  decide

/-- Claim C8 as amended: the peaks slicing path sorts its selected records
by the timepoint value, the Unet path sorts the file names
lexicographically (which matches timepoint order only for uniform-width
tags), and the sorted file list is independent of the insertion order of
the metadata dictionary, so no stage depends on dict iteration order. -/
theorem C8_amended_sorted_consumers (analyzed : List (String × Record))
    (items : List (String × Nat)) :
    List.Sorted (fun a b : String × Nat => a.2 ≤ b.2)
      (sort_send_to_write items) ∧
    List.Sorted (fun a b : String => a ≤ b) (unet_file_names analyzed) ∧
    (∀ analyzed2 : List (String × Record),
       List.Perm (analyzed.map Prod.fst) (analyzed2.map Prod.fst) →
       unet_file_names analyzed = unet_file_names analyzed2) := by
  haveI ht : IsTotal (String × Nat) (fun a b => a.2 ≤ b.2) :=
    ⟨fun a b => Nat.le_total a.2 b.2⟩
  haveI htr : IsTrans (String × Nat) (fun a b => a.2 ≤ b.2) :=
    ⟨fun _ _ _ hab hbc => le_trans hab hbc⟩
  refine ⟨List.sorted_insertionSort _ items, List.sorted_insertionSort _ _, ?_⟩
  intro analyzed2 hperm
  have p1 := List.perm_insertionSort
    (fun a b : String => a ≤ b) (analyzed.map Prod.fst)
  have p2 := List.perm_insertionSort
    (fun a b : String => a ≤ b) (analyzed2.map Prod.fst)
  exact List.eq_of_perm_of_sorted (p1.trans (hperm.trans p2.symm))
    (List.sorted_insertionSort _ _) (List.sorted_insertionSort _ _)

/-- Witness for the amended C8 theorem: the sorted file list of the
two-frame table is unchanged when the table insertion order is swapped. -/
theorem C8_amended_witness :
    unet_file_names demo_analyzed = unet_file_names demo_analyzed_swapped :=
  (C8_amended_sorted_consumers demo_analyzed []).2.2 demo_analyzed_swapped
    (by decide)

end MM3
